import Mathlib

/-!
Shallow embedding of the smac_planner path-smoother cost function
(src/smac_planner/include/smac_planner/smoother_cost_function.hpp) and
proofs about it.  C++ doubles are modelled as real numbers, so the
isnan/isinf guards of the source are vacuous here and are noted where they
occur; unsigned int arithmetic is modelled with explicit wraparound mod
2^32 where the source can underflow.
-/

/-- EPSILON from the source header (line 31). -/
noncomputable def EPSILON : ℝ := 0.0001

/-- Modelled from the spec: src/smac_planner/include/smac_planner/types.hpp is
absent from the sources; the spec names four cost-field thresholds that
partition the value range (FREE no cost, MAX_NON_OBSTACLE the quadratic
reference, INSCRIBED begins the collision penalty, UNKNOWN no information),
following the standard ROS costmap convention of an 8-bit value range. -/
noncomputable def FREE : ℝ := 0

/-- Modelled from the spec: see FREE. -/
noncomputable def MAX_NON_OBSTACLE : ℝ := 252

/-- Modelled from the spec: see FREE. -/
noncomputable def INSCRIBED : ℝ := 253

/-- Modelled from the spec: see FREE. -/
noncomputable def UNKNOWN : ℝ := 255

/-- Unsigned 32-bit wraparound subtraction, for the source's
`mx - 1 > 0` / `mx - 2` expressions on `unsigned int`. -/
def wrapSub (a b : ℕ) : ℕ := (((a : ℤ) - (b : ℤ)) % (2 ^ 32)).toNat

/-- Unsigned 32-bit wraparound addition. -/
def wrapAdd (a b : ℕ) : ℕ := (a + b) % 2 ^ 32

/-- Eigen::Vector2d as used by the source. -/
structure Vec2 where
  x : ℝ
  y : ℝ

/-- Eigen dot product. -/
noncomputable def Vec2.dot (a b : Vec2) : ℝ := a.x * b.x + a.y * b.y

/-- Eigen squaredNorm. -/
noncomputable def Vec2.squaredNorm (a : Vec2) : ℝ := a.dot a

/-- Eigen norm: sqrt of the squared norm. -/
noncomputable def Vec2.norm (a : Vec2) : ℝ := Real.sqrt a.squaredNorm

/-- Componentwise subtraction. -/
noncomputable def Vec2.sub (a b : Vec2) : Vec2 := ⟨a.x - b.x, a.y - b.y⟩

/-- Negation, for the source's `-1 * pt_p`. -/
noncomputable def Vec2.neg (a : Vec2) : Vec2 := ⟨-a.x, -a.y⟩

/-- Scalar multiple. -/
noncomputable def Vec2.smul (r : ℝ) (a : Vec2) : Vec2 := ⟨r * a.x, r * a.y⟩

/-- Modelled from the spec: src/smac_planner/include/smac_planner/minimal_costmap.hpp
is absent from the sources.  The spec's Cost Field Accessor exposes a
world-to-grid transform that may fail (point outside the map), a per-cell
cost lookup, and the grid width/height. -/
structure MinimalCostmap where
  sizeX : ℕ
  sizeY : ℕ
  getCost : ℕ → ℕ → ℝ
  worldToMap : ℝ → ℝ → Option (ℕ × ℕ)

/-- smac_planner::CurvatureComputations.  The C++ constructor initializes only
`valid` (to true); the remaining members start as indeterminate doubles, which
the embedding models by threading an explicit initial record through
Evaluate. -/
structure CurvatureComputations where
  valid : Bool
  delta_xi : Vec2
  delta_xi_p : Vec2
  delta_xi_norm : ℝ
  delta_xi_p_norm : ℝ
  delta_phi_i : ℝ
  turning_rad : ℝ
  ki_minus_kmax : ℝ

/-- smac_planner::CostComputations (all members value-initialized to 0). -/
structure CostComputations where
  cost : ℝ
  gradx : ℝ
  grady : ℝ

/-- The weight configuration fixed by the
UnconstrainedSmootherCostFunction constructor. -/
structure Weights where
  Wsmooth : ℝ
  Wcost : ℝ
  Wchange : ℝ
  Wcurve : ℝ
  Wcollision : ℝ
  max_turning_radius : ℝ

/-- The hard-coded constructor values (source lines 95-102). -/
noncomputable def defaultWeights : Weights :=
  { Wsmooth := 200000, Wcost := 0.2, Wchange := 1, Wcurve := 2,
    Wcollision := 1, max_turning_radius := 10 }

/-- addSmoothingResidual (source lines 196-218); returns the increment added
to the running cost. -/
noncomputable def addSmoothingResidual (weight : ℝ) (pt pt_p pt_m : Vec2) : ℝ :=
  weight * (pt_p.dot pt_p
    - 4 * pt_p.dot pt
    + 2 * pt_p.dot pt_m
    + 4 * pt.dot pt
    - 4 * pt.dot pt_m
    + pt_m.dot pt_m)

/-- addSmoothingJacobian (source lines 229-239); returns the pair of
increments added to the x and y gradient accumulators. -/
noncomputable def addSmoothingJacobian (weight : ℝ) (pt pt_p pt_m : Vec2) : ℝ × ℝ :=
  (weight * (-4 * pt_m.x + 8 * pt.x - 4 * pt_p.x),
   weight * (-4 * pt_m.y + 8 * pt.y - 4 * pt_p.y))

/-- addMaxCurvatureResidual (source lines 250-290); returns the updated cache
and the increment added to the running cost.  Over the reals the source's
isnan/isinf guards on the two segment norms are vacuously false.  Note that
the source never sets `valid` back to true: the flag only ever passes
through or is cleared. -/
noncomputable def addMaxCurvatureResidual (weight max_turning_radius : ℝ)
    (pt pt_p pt_m : Vec2) (cp0 : CurvatureComputations) :
    CurvatureComputations × ℝ :=
  let cp1 : CurvatureComputations :=
    { cp0 with
      delta_xi := ⟨pt.x - pt_m.x, pt.y - pt_m.y⟩,
      delta_xi_p := ⟨pt_p.x - pt.x, pt_p.y - pt.y⟩ }
  let cp : CurvatureComputations :=
    { cp1 with
      delta_xi_norm := cp1.delta_xi.norm,
      delta_xi_p_norm := cp1.delta_xi_p.norm }
  if cp.delta_xi_norm < EPSILON ∨ cp.delta_xi_p_norm < EPSILON then
    ({ cp with valid := false }, 0)
  else
    let delta_xi_by_xi_p := cp.delta_xi_norm * cp.delta_xi_p_norm
    let projection0 := cp.delta_xi.dot cp.delta_xi_p / delta_xi_by_xi_p
    let projection :=
      if |1 - projection0| < EPSILON ∨ |projection0 + 1| < EPSILON then 1
      else projection0
    let cpdone : CurvatureComputations :=
      { cp with
        delta_phi_i := Real.arccos projection,
        turning_rad := Real.arccos projection / cp.delta_xi_norm,
        ki_minus_kmax :=
          Real.arccos projection / cp.delta_xi_norm - max_turning_radius }
    if cpdone.ki_minus_kmax ≤ EPSILON then
      ({ cpdone with valid := false }, 0)
    else
      (cpdone, weight * cpdone.ki_minus_kmax * cpdone.ki_minus_kmax)

/-- normalizedOrthogonalComplement (source lines 492-499).  A division by a
zero squaredNorm, NaN in C++, is the Lean junk value 0; no theorem below
evaluates that case. -/
noncomputable def normalizedOrthogonalComplement (a b : Vec2)
    (a_norm b_norm : ℝ) : Vec2 :=
  Vec2.smul (1 / (a_norm * b_norm))
    (Vec2.sub a (Vec2.smul (a.dot b / b.squaredNorm) b))

/-- addMaxCurvatureJacobian (source lines 302-328); returns the pair of
increments added to the gradient accumulators. -/
noncomputable def addMaxCurvatureJacobian (weight : ℝ) (pt pt_p pt_m : Vec2)
    (cp : CurvatureComputations) : ℝ × ℝ :=
  if cp.valid = false then (0, 0)
  else
    let pd : ℝ := -1 / Real.sqrt (1 - Real.cos cp.delta_phi_i ^ 2)
    let neg_pt_plus := pt_p.neg
    let p1 := normalizedOrthogonalComplement pt neg_pt_plus
      cp.delta_xi_norm cp.delta_xi_p_norm
    let p2 := normalizedOrthogonalComplement neg_pt_plus pt
      cp.delta_xi_norm cp.delta_xi_p_norm
    let u := 2 * cp.ki_minus_kmax
    let commonPre := -1 / cp.delta_xi_norm * pd
    let common_suffix := cp.delta_phi_i / (cp.delta_xi_norm * cp.delta_xi_norm)
    (weight * (u * (commonPre * (-p1.x - p2.x) - common_suffix * 1)),
     weight * (u * (commonPre * (-p1.y - p2.y) - common_suffix * 1)))

/-- addCollisionResidual (source lines 337-353); returns the updated cache
and the increment added to the running cost. -/
noncomputable def addCollisionResidual (weight value : ℝ)
    (params : CostComputations) : CostComputations × ℝ :=
  if value < INSCRIBED then (params, 0)
  else
    let c := -1 * weight *
      (value * value - 2 * MAX_NON_OBSTACLE * value +
        MAX_NON_OBSTACLE * MAX_NON_OBSTACLE)
    ({ params with cost := c }, c)

/-- addCostResidual (source lines 394-411); returns the increment added to
the running cost (the cache is only read). -/
noncomputable def addCostResidual (weight value : ℝ)
    (params : CostComputations) : ℝ :=
  if value = FREE ∨ value = UNKNOWN then 0
  else if params.cost ≠ 0 then params.cost
  else -1 * weight *
    (value * value - 2 * MAX_NON_OBSTACLE * value +
      MAX_NON_OBSTACLE * MAX_NON_OBSTACLE)

/-- addTurningRateChangeResidual (source lines 453-462). -/
noncomputable def addTurningRateChangeResidual (weight ki ki_m1 : ℝ) : ℝ :=
  weight * (ki * ki + ki_m1 * ki_m1 - 2 * ki * ki_m1)

/-- addTurningRateChangeJacobian (source lines 472-481). -/
noncomputable def addTurningRateChangeJacobian (weight ki ki_m1 : ℝ) : ℝ × ℝ :=
  (2 * weight * (ki - ki_m1), 2 * weight * (ki - ki_m1))

/-- getCostmapGradient (source lines 508-557).  The guards are translated
with the source's `unsigned int` semantics (`mx - 1 > 0` wraps at 0).  Note
the source's final neighbor read assigns `left_two`, not `down_two` (line
544), and `down_two` keeps its initial 0. -/
noncomputable def getCostmapGradient (cm : MinimalCostmap) (mx my : ℕ)
    (params : CostComputations) : CostComputations :=
  let right_one := if mx < cm.sizeX then cm.getCost (wrapAdd mx 1) my else 0
  let right_two := if mx + 1 < cm.sizeX then cm.getCost (wrapAdd mx 2) my else 0
  let left_one := if 0 < mx then cm.getCost (mx - 1) my else 0
  let left_two0 := if 0 < wrapSub mx 1 then cm.getCost (wrapSub mx 2) my else 0
  let up_one := if my < cm.sizeY then cm.getCost mx (wrapAdd my 1) else 0
  let up_two := if my + 1 < cm.sizeY then cm.getCost mx (wrapAdd my 2) else 0
  let down_one := if 0 < my then cm.getCost mx (my - 1) else 0
  let left_two := if 0 < wrapSub my 1 then cm.getCost mx (wrapSub my 2) else left_two0
  let down_two : ℝ := 0
  let gradx0 := (8 * up_one - up_two - 8 * down_one + down_two) / 12
  let grady0 := (8 * right_one - right_two - 8 * left_one + left_two) / 12
  let grad_mag := Real.sqrt (gradx0 ^ 2 + grady0 ^ 2)
  if EPSILON < grad_mag then
    { params with gradx := gradx0 / grad_mag, grady := grady0 / grad_mag }
  else
    { params with gradx := gradx0, grady := grady0 }

/-- addCollisionJacobian (source lines 365-385); returns the updated cache
and the pair of increments added to the gradient accumulators. -/
noncomputable def addCollisionJacobian (weight : ℝ) (cm : MinimalCostmap)
    (mx my : ℕ) (value : ℝ) (params : CostComputations) :
    CostComputations × ℝ × ℝ :=
  if value < INSCRIBED then (params, 0, 0)
  else
    let params1 := getCostmapGradient cm mx my params
    let commonPre := -2 * weight * (value - MAX_NON_OBSTACLE)
    (params1, commonPre * params1.gradx, commonPre * params1.grady)

/-- addCostJacobian (source lines 423-444); returns the updated cache and
the pair of increments added to the gradient accumulators. -/
noncomputable def addCostJacobian (weight : ℝ) (cm : MinimalCostmap)
    (mx my : ℕ) (value : ℝ) (params : CostComputations) :
    CostComputations × ℝ × ℝ :=
  if value = FREE ∨ value = UNKNOWN then (params, 0, 0)
  else
    let params1 :=
      if params.gradx = 0 ∧ params.grady = 0 then getCostmapGradient cm mx my params
      else params
    let commonPre := -2 * weight * (value - MAX_NON_OBSTACLE)
    (params1, commonPre * params1.gradx, commonPre * params1.grady)

/-- The per-iteration state of the Evaluate loop.  `grad_x_raw` and
`grad_y_raw` are the `double grad_x_raw, grad_y_raw` accumulators declared
before the loop (source lines 121-122): the source never resets them inside
the loop.  `curvature_params` and `cost_params` are likewise declared once,
before the loop (source lines 129-130), and carried across iterations. -/
structure EvalState where
  cost_raw : ℝ
  grad_x_raw : ℝ
  grad_y_raw : ℝ
  ki_m1 : ℝ
  curvature_params : CurvatureComputations
  cost_params : CostComputations
  gradient : ℕ → ℝ

/-- One non-skipped iteration of the Evaluate loop (source lines 139-171)
for interior index i.  The gradient block first zeroes the two output slots
and finally stores the accumulators, so its net effect on the buffer is the
two final stores. -/
noncomputable def evalStep (W : Weights) (cm : MinimalCostmap)
    (params : ℕ → ℝ) (wantGradient : Bool) (s : EvalState) (i : ℕ) :
    EvalState :=
  let xi : Vec2 := ⟨params (2 * i), params (2 * i + 1)⟩
  let xi_p1 : Vec2 := ⟨params (2 * i + 2), params (2 * i + 3)⟩
  let xi_m1 : Vec2 := ⟨params (2 * i - 2), params (2 * i - 1)⟩
  let r1 := addSmoothingResidual W.Wsmooth xi xi_p1 xi_m1
  let cr := addMaxCurvatureResidual W.Wcurve W.max_turning_radius xi xi_p1 xi_m1
    s.curvature_params
  let r3 := addTurningRateChangeResidual W.Wchange cr.1.turning_rad s.ki_m1
  let lookup := cm.worldToMap xi.x xi.y
  let colRes : CostComputations × ℝ :=
    match lookup with
    | some (mx, my) =>
        let value := cm.getCost mx my
        let a := addCollisionResidual W.Wcollision value s.cost_params
        let b := addCostResidual W.Wcost value a.1
        (a.1, a.2 + b)
    | none => (s.cost_params, 0)
  let cost1 := s.cost_raw + r1 + cr.2 + r3 + colRes.2
  if wantGradient then
    let j1 := addSmoothingJacobian W.Wsmooth xi xi_p1 xi_m1
    let j2 := addMaxCurvatureJacobian W.Wcurve xi xi_p1 xi_m1 cr.1
    let j3 := addTurningRateChangeJacobian W.Wchange cr.1.turning_rad s.ki_m1
    let colJac : CostComputations × ℝ × ℝ :=
      match lookup with
      | some (mx, my) =>
          let value := cm.getCost mx my
          let a := addCollisionJacobian W.Wcollision cm mx my value colRes.1
          let b := addCostJacobian W.Wcost cm mx my value a.1
          (b.1, a.2.1 + b.2.1, a.2.2 + b.2.2)
      | none => (colRes.1, 0, 0)
    let gx := s.grad_x_raw + j1.1 + j2.1 + j3.1 + colJac.2.1
    let gy := s.grad_y_raw + j1.2 + j2.2 + j3.2 + colJac.2.2
    { cost_raw := cost1, grad_x_raw := gx, grad_y_raw := gy,
      ki_m1 := cr.1.turning_rad, curvature_params := cr.1,
      cost_params := colJac.1,
      gradient :=
        Function.update (Function.update s.gradient (2 * i) gx) (2 * i + 1) gy }
  else
    { cost_raw := cost1, grad_x_raw := s.grad_x_raw,
      grad_y_raw := s.grad_y_raw, ki_m1 := cr.1.turning_rad,
      curvature_params := cr.1, cost_params := colRes.1,
      gradient := s.gradient }

/-- The guarded loop body: indices i < 1 and i >= N - 1 are skipped
(source lines 135-137). -/
noncomputable def evalIter (W : Weights) (cm : MinimalCostmap)
    (params : ℕ → ℝ) (wantGradient : Bool) (N : ℕ) (s : EvalState) (i : ℕ) :
    EvalState :=
  if i < 1 ∨ N - 1 ≤ i then s else evalStep W cm params wantGradient s i

/-- UnconstrainedSmootherCostFunction::Evaluate (source lines 112-180) over a
path of N points.  `params` is the flat 2N-value buffer, `gradient0` the
caller-supplied gradient buffer (the source only ever writes interior
slots), and `cc0` the indeterminate initial contents of the stack-allocated
CurvatureComputations whose constructor sets only `valid := true`.  Returns
the final cost and gradient buffer. -/
noncomputable def Evaluate (W : Weights) (cm : MinimalCostmap) (N : ℕ)
    (params gradient0 : ℕ → ℝ) (wantGradient : Bool)
    (cc0 : CurvatureComputations) : ℝ × (ℕ → ℝ) :=
  let s0 : EvalState :=
    { cost_raw := 0, grad_x_raw := 0, grad_y_raw := 0, ki_m1 := 0,
      curvature_params := { cc0 with valid := true },
      cost_params := { cost := 0, gradx := 0, grady := 0 },
      gradient := gradient0 }
  let sF := (List.range N).foldl (evalIter W cm params wantGradient N) s0
  (sF.cost_raw, sF.gradient)

/-- A cost field whose world-to-grid transform always fails (every queried
point is outside the map); instance of the spec-modelled accessor. -/
noncomputable def cmNone : MinimalCostmap :=
  { sizeX := 0, sizeY := 0, getCost := fun _ _ => 0,
    worldToMap := fun _ _ => none }

/-- An arbitrary concrete initial value for the indeterminate
CurvatureComputations members (constructor sets only valid). -/
noncomputable def ccZero : CurvatureComputations :=
  { valid := true, delta_xi := ⟨0, 0⟩, delta_xi_p := ⟨0, 0⟩,
    delta_xi_norm := 0, delta_xi_p_norm := 0, delta_phi_i := 0,
    turning_rad := 0, ki_minus_kmax := 0 }

/-- A second concrete initial value for the indeterminate
CurvatureComputations members, differing from ccZero in turning_rad. -/
noncomputable def ccOne : CurvatureComputations :=
  { valid := true, delta_xi := ⟨0, 0⟩, delta_xi_p := ⟨0, 0⟩,
    delta_xi_norm := 0, delta_xi_p_norm := 0, delta_phi_i := 0,
    turning_rad := 1, ki_minus_kmax := 0 }

/-- Flat buffer of the 4-point path (0,0), (1,0), (3,0), (4,0). -/
noncomputable def pathC1 : ℕ → ℝ :=
  fun j => if j = 2 then 1 else if j = 4 then 3 else if j = 6 then 4 else 0

/-- Flat buffer of the 3-point path (0,0), (1,0), (2,0). -/
noncomputable def pathC2 : ℕ → ℝ :=
  fun j => if j = 2 then 1 else if j = 4 then 2 else 0

/-- Flat buffer of the degenerate 3-point path (0,0), (0,0), (1,0): the
middle point coincides with the first. -/
noncomputable def pathC9 : ℕ → ℝ := fun j => if j = 4 then 1 else 0

/-- An 11 x 11 cost field, all cells FREE (0) except cell (3,5) = 12;
instance of the spec-modelled accessor used to probe getCostmapGradient. -/
noncomputable def cmC5 : MinimalCostmap :=
  { sizeX := 11, sizeY := 11,
    getCost := fun x y => if x = 3 ∧ y = 5 then 12 else 0,
    worldToMap := fun _ _ => none }

/-- The cost-field local gradient helper as the spec describes it: in each
axis the five-point finite-difference stencil over that axis's four
axis-aligned neighbors at distance 1 and 2 cells, out-of-bounds samples
treated as zero (only in-bounds cells read), the result normalized to unit
length when its magnitude exceeds EPSILON and the zero vector otherwise.
Written from the spec's words for comparison with getCostmapGradient. -/
noncomputable def specCostmapGradient (cm : MinimalCostmap) (mx my : ℕ) :
    ℝ × ℝ :=
  let sample : ℤ → ℤ → ℝ := fun x y =>
    if 0 ≤ x ∧ x < (cm.sizeX : ℤ) ∧ 0 ≤ y ∧ y < (cm.sizeY : ℤ) then
      cm.getCost x.toNat y.toNat
    else 0
  let gx := (8 * sample ((mx : ℤ) + 1) my - sample ((mx : ℤ) + 2) my
    - 8 * sample ((mx : ℤ) - 1) my + sample ((mx : ℤ) - 2) my) / 12
  let gy := (8 * sample mx ((my : ℤ) + 1) - sample mx ((my : ℤ) + 2)
    - 8 * sample mx ((my : ℤ) - 1) + sample mx ((my : ℤ) - 2)) / 12
  let mag := Real.sqrt (gx ^ 2 + gy ^ 2)
  if EPSILON < mag then (gx / mag, gy / mag) else (0, 0)

/-- Claim C3 counterexample: at value UNKNOWN the collision term adds the
nonzero increment -9 (with weight 1), not zero, because the source only
checks `value < INSCRIBED` and UNKNOWN lies above INSCRIBED; and at value
INSCRIBED the collision increment is -1, which is negative, not the
non-negative contribution the claim states. -/
theorem C3_collision_unknown_inscribed_counterexample :
    (addCollisionResidual 1 UNKNOWN ⟨0, 0, 0⟩).2 = -9 ∧
    (addCollisionResidual 1 INSCRIBED ⟨0, 0, 0⟩).2 = -1 ∧
    (-9 : ℝ) ≠ 0 ∧ ¬ (0 : ℝ) ≤ (-1 : ℝ) := by
  refine ⟨?_, ?_, by norm_num, by norm_num⟩ <;>
    · simp only [addCollisionResidual, UNKNOWN, INSCRIBED, MAX_NON_OBSTACLE]
      norm_num

/-- Claim C3 (amended): for a cost value exactly FREE the cost-avoidance term
contributes zero, and at UNKNOWN the cost-avoidance term also contributes
zero; but at INSCRIBED the collision term becomes active with the strictly
negative contribution -w (INSCRIBED - MAX_NON_OBSTACLE)^2, and at UNKNOWN
the collision term is active as well (UNKNOWN is above INSCRIBED), adding
-w (UNKNOWN - MAX_NON_OBSTACLE)^2, which is nonzero for positive weight. -/
theorem C3_field_term_thresholds_amended (w : ℝ) (ps : CostComputations)
    (hw : 0 < w) :
    addCostResidual w FREE ps = 0 ∧
    addCostResidual w UNKNOWN ps = 0 ∧
    (addCollisionResidual w INSCRIBED ps).2 =
      -(w * (INSCRIBED - MAX_NON_OBSTACLE) ^ 2) ∧
    (addCollisionResidual w INSCRIBED ps).2 < 0 ∧
    (addCollisionResidual w UNKNOWN ps).2 =
      -(w * (UNKNOWN - MAX_NON_OBSTACLE) ^ 2) ∧
    (addCollisionResidual w UNKNOWN ps).2 ≠ 0 := by
  refine ⟨?_, ?_, ?_, ?_, ?_, ?_⟩ <;>
    · simp only [addCostResidual, addCollisionResidual, FREE, UNKNOWN,
        INSCRIBED, MAX_NON_OBSTACLE]
      norm_num
      try nlinarith

/-- Witness for C3_field_term_thresholds_amended at w = 1,
ps = the zero-initialized cache. -/
theorem C3_field_term_thresholds_amended_witness :
    (0 : ℝ) < 1 ∧
    (addCostResidual 1 FREE ⟨0, 0, 0⟩ = 0 ∧
     addCostResidual 1 UNKNOWN ⟨0, 0, 0⟩ = 0 ∧
     (addCollisionResidual 1 INSCRIBED ⟨0, 0, 0⟩).2 =
       -(1 * (INSCRIBED - MAX_NON_OBSTACLE) ^ 2) ∧
     (addCollisionResidual 1 INSCRIBED ⟨0, 0, 0⟩).2 < 0 ∧
     (addCollisionResidual 1 UNKNOWN ⟨0, 0, 0⟩).2 =
       -(1 * (UNKNOWN - MAX_NON_OBSTACLE) ^ 2) ∧
     (addCollisionResidual 1 UNKNOWN ⟨0, 0, 0⟩).2 ≠ 0) :=
  ⟨by norm_num, C3_field_term_thresholds_amended 1 ⟨0, 0, 0⟩ (by norm_num)⟩

/-- Claim C4 counterexample: with the constructor weights, at value
INSCRIBED the cost-avoidance term reuses the collision term's cached value
-Wcollision (v - MAX_NON_OBSTACLE)^2 = -1, while computing its own formula
independently (empty cache) yields -Wcost (v - MAX_NON_OBSTACLE)^2 = -1/5;
the reused contribution is not identical to the independent one. -/
theorem C4_reuse_not_identical_counterexample :
    addCostResidual defaultWeights.Wcost INSCRIBED
      (addCollisionResidual defaultWeights.Wcollision INSCRIBED ⟨0, 0, 0⟩).1
      = -1 ∧
    addCostResidual defaultWeights.Wcost INSCRIBED ⟨0, 0, 0⟩ = -(1 / 5) ∧
    (-1 : ℝ) ≠ -(1 / 5) := by
  refine ⟨?_, ?_, by norm_num⟩ <;>
    · simp only [addCostResidual, addCollisionResidual, defaultWeights, FREE,
        UNKNOWN, INSCRIBED, MAX_NON_OBSTACLE]
      norm_num

/-- Claim C4 (amended): when the collision term has computed a nonzero
penalty for the current point, the cost-avoidance term returns exactly that
cached value; the reuse coincides with what the cost-avoidance formula
would compute independently only when the collision weight equals the
cost-avoidance weight (the cache stores the collision-weighted penalty). -/
theorem C4_cached_reuse_amended (wcoll wcost v : ℝ) (ps : CostComputations)
    (hv : ¬ v < INSCRIBED) (hF : v ≠ FREE) (hU : v ≠ UNKNOWN)
    (hne : ((addCollisionResidual wcoll v ps).1).cost ≠ 0) :
    addCostResidual wcost v (addCollisionResidual wcoll v ps).1 =
      ((addCollisionResidual wcoll v ps).1).cost ∧
    (wcoll = wcost →
      addCostResidual wcost v (addCollisionResidual wcoll v ps).1 =
        addCostResidual wcost v ⟨0, 0, 0⟩) := by
  constructor
  · simp only [addCostResidual, if_neg (by simp [hF, hU] : ¬ (v = FREE ∨ v = UNKNOWN)),
      if_pos hne]
  · intro hw
    have hFU : ¬ (v = FREE ∨ v = UNKNOWN) := by simp [hF, hU]
    have lhs : addCostResidual wcost v (addCollisionResidual wcoll v ps).1 =
        ((addCollisionResidual wcoll v ps).1).cost := by
      simp only [addCostResidual, if_neg hFU, if_pos hne]
    have hxc : ((addCollisionResidual wcoll v ps).1).cost =
        -1 * wcoll * (v * v - 2 * MAX_NON_OBSTACLE * v +
          MAX_NON_OBSTACLE * MAX_NON_OBSTACLE) := by
      simp only [addCollisionResidual, if_neg hv]
    have rhs : addCostResidual wcost v ⟨0, 0, 0⟩ =
        -1 * wcost * (v * v - 2 * MAX_NON_OBSTACLE * v +
          MAX_NON_OBSTACLE * MAX_NON_OBSTACLE) := by
      simp only [addCostResidual, if_neg hFU]
      rw [if_neg (by simp)]
    rw [lhs, hxc, rhs, hw]

/-- Witness for C4_cached_reuse_amended at wcoll = wcost = 1,
v = INSCRIBED, ps = the zero-initialized cache. -/
theorem C4_cached_reuse_amended_witness :
    (¬ INSCRIBED < INSCRIBED ∧ INSCRIBED ≠ FREE ∧ INSCRIBED ≠ UNKNOWN ∧
     ((addCollisionResidual 1 INSCRIBED ⟨0, 0, 0⟩).1).cost ≠ 0) ∧
    (addCostResidual 1 INSCRIBED (addCollisionResidual 1 INSCRIBED ⟨0, 0, 0⟩).1 =
      ((addCollisionResidual 1 INSCRIBED ⟨0, 0, 0⟩).1).cost ∧
    ((1 : ℝ) = 1 →
      addCostResidual 1 INSCRIBED (addCollisionResidual 1 INSCRIBED ⟨0, 0, 0⟩).1 =
        addCostResidual 1 INSCRIBED ⟨0, 0, 0⟩)) := by
  have h1 : ¬ INSCRIBED < INSCRIBED := by norm_num
  have h2 : INSCRIBED ≠ FREE := by simp [INSCRIBED, FREE]
  have h3 : INSCRIBED ≠ UNKNOWN := by simp [INSCRIBED, UNKNOWN]
  have h4 : ((addCollisionResidual 1 INSCRIBED ⟨0, 0, 0⟩).1).cost ≠ 0 := by
    simp only [addCollisionResidual, INSCRIBED, MAX_NON_OBSTACLE]
    norm_num
  exact ⟨⟨h1, h2, h3, h4⟩, C4_cached_reuse_amended 1 1 INSCRIBED ⟨0, 0, 0⟩ h1 h2 h3 h4⟩

/-- Relation between two Evaluate loop states that agree on every component
the cost computation can read (cost accumulator, carried turning-radius,
curvature cache, and the cost member of the cost cache); the gradient-only
components may differ. -/
def EvalRel (s t : EvalState) : Prop :=
  s.cost_raw = t.cost_raw ∧ s.ki_m1 = t.ki_m1 ∧
  s.curvature_params = t.curvature_params ∧
  s.cost_params.cost = t.cost_params.cost

theorem vec2_norm_def (x y : ℝ) : Vec2.norm ⟨x, y⟩ = Real.sqrt (x * x + y * y) := rfl

theorem vec2_norm_xaxis (x : ℝ) (h : 0 ≤ x) : Vec2.norm ⟨x, 0⟩ = x := by
  rw [vec2_norm_def, show x * x + 0 * 0 = x * x by ring, Real.sqrt_mul_self h]

theorem vec2_norm_yaxis (y : ℝ) (h : 0 ≤ y) : Vec2.norm ⟨0, y⟩ = y := by
  rw [vec2_norm_def, show 0 * 0 + y * y = y * y by ring, Real.sqrt_mul_self h]

/-- Characterization of addMaxCurvatureResidual on non-degenerate segments:
the cached excess is the turning-radius estimate minus the threshold, and
the cost increment is the one-sided quadratic in that excess. -/
theorem addMaxCurvatureResidual_spec (w kmax : ℝ) (pt pt_p pt_m : Vec2)
    (cc : CurvatureComputations)
    (h1 : ¬ Vec2.norm ⟨pt.x - pt_m.x, pt.y - pt_m.y⟩ < EPSILON)
    (h2 : ¬ Vec2.norm ⟨pt_p.x - pt.x, pt_p.y - pt.y⟩ < EPSILON) :
    (addMaxCurvatureResidual w kmax pt pt_p pt_m cc).1.ki_minus_kmax =
      (addMaxCurvatureResidual w kmax pt pt_p pt_m cc).1.turning_rad - kmax ∧
    (addMaxCurvatureResidual w kmax pt pt_p pt_m cc).2 =
      (if (addMaxCurvatureResidual w kmax pt pt_p pt_m cc).1.turning_rad - kmax
          ≤ EPSILON then 0
       else w * ((addMaxCurvatureResidual w kmax pt pt_p pt_m cc).1.turning_rad - kmax)
          * ((addMaxCurvatureResidual w kmax pt pt_p pt_m cc).1.turning_rad - kmax)) := by
  rw [addMaxCurvatureResidual]
  simp only [if_neg (not_or.mpr ⟨h1, h2⟩)]
  by_cases hk :
      Real.arccos
        (if |1 - Vec2.dot ⟨pt.x - pt_m.x, pt.y - pt_m.y⟩ ⟨pt_p.x - pt.x, pt_p.y - pt.y⟩ /
              (Vec2.norm ⟨pt.x - pt_m.x, pt.y - pt_m.y⟩ *
               Vec2.norm ⟨pt_p.x - pt.x, pt_p.y - pt.y⟩)| < EPSILON ∨
            |Vec2.dot ⟨pt.x - pt_m.x, pt.y - pt_m.y⟩ ⟨pt_p.x - pt.x, pt_p.y - pt.y⟩ /
              (Vec2.norm ⟨pt.x - pt_m.x, pt.y - pt_m.y⟩ *
               Vec2.norm ⟨pt_p.x - pt.x, pt_p.y - pt.y⟩) + 1| < EPSILON then 1
         else Vec2.dot ⟨pt.x - pt_m.x, pt.y - pt_m.y⟩ ⟨pt_p.x - pt.x, pt_p.y - pt.y⟩ /
              (Vec2.norm ⟨pt.x - pt_m.x, pt.y - pt_m.y⟩ *
               Vec2.norm ⟨pt_p.x - pt.x, pt_p.y - pt.y⟩)) /
        Vec2.norm ⟨pt.x - pt_m.x, pt.y - pt_m.y⟩ - kmax ≤ EPSILON
  · simp only [if_pos hk]
    exact ⟨trivial, trivial⟩
  · simp only [if_neg hk]
    exact ⟨trivial, trivial⟩

/-- Claim C8: on non-degenerate segments the curvature-limit cost increment
is exactly zero whenever the turning-radius estimate minus the configured
maximum is at most EPSILON; when the excess strictly exceeds EPSILON the
increment equals w (estimate - max)^2, is strictly positive, and is
monotonically increasing in the estimate across configurations. -/
theorem C8_curvature_threshold_quadratic (w kmax : ℝ) (hw : 0 < w)
    (pt pt_p pt_m qt qt_p qt_m : Vec2) (cc cd : CurvatureComputations)
    (h1 : ¬ Vec2.norm ⟨pt.x - pt_m.x, pt.y - pt_m.y⟩ < EPSILON)
    (h2 : ¬ Vec2.norm ⟨pt_p.x - pt.x, pt_p.y - pt.y⟩ < EPSILON)
    (h3 : ¬ Vec2.norm ⟨qt.x - qt_m.x, qt.y - qt_m.y⟩ < EPSILON)
    (h4 : ¬ Vec2.norm ⟨qt_p.x - qt.x, qt_p.y - qt.y⟩ < EPSILON) :
    ((addMaxCurvatureResidual w kmax pt pt_p pt_m cc).1.turning_rad - kmax ≤
        EPSILON →
      (addMaxCurvatureResidual w kmax pt pt_p pt_m cc).2 = 0) ∧
    (EPSILON <
        (addMaxCurvatureResidual w kmax pt pt_p pt_m cc).1.turning_rad - kmax →
      (addMaxCurvatureResidual w kmax pt pt_p pt_m cc).2 =
        w * ((addMaxCurvatureResidual w kmax pt pt_p pt_m cc).1.turning_rad - kmax)
          * ((addMaxCurvatureResidual w kmax pt pt_p pt_m cc).1.turning_rad - kmax) ∧
      0 < (addMaxCurvatureResidual w kmax pt pt_p pt_m cc).2) ∧
    (EPSILON <
        (addMaxCurvatureResidual w kmax pt pt_p pt_m cc).1.turning_rad - kmax →
     EPSILON <
        (addMaxCurvatureResidual w kmax qt qt_p qt_m cd).1.turning_rad - kmax →
     (addMaxCurvatureResidual w kmax pt pt_p pt_m cc).1.turning_rad <
        (addMaxCurvatureResidual w kmax qt qt_p qt_m cd).1.turning_rad →
     (addMaxCurvatureResidual w kmax pt pt_p pt_m cc).2 <
        (addMaxCurvatureResidual w kmax qt qt_p qt_m cd).2) := by
  obtain ⟨hpk, hpr⟩ := addMaxCurvatureResidual_spec w kmax pt pt_p pt_m cc h1 h2
  obtain ⟨hqk, hqr⟩ := addMaxCurvatureResidual_spec w kmax qt qt_p qt_m cd h3 h4
  have heps : (0 : ℝ) < EPSILON := by norm_num [EPSILON]
  refine ⟨?_, ?_, ?_⟩
  · intro hle
    rw [hpr, if_pos hle]
  · intro hgt
    rw [hpr, if_neg (not_le.mpr hgt)]
    have ha : 0 < (addMaxCurvatureResidual w kmax pt pt_p pt_m cc).1.turning_rad - kmax :=
      heps.trans hgt
    exact ⟨rfl, mul_pos (mul_pos hw ha) ha⟩
  · intro hp hq hlt
    rw [hpr, if_neg (not_le.mpr hp), hqr, if_neg (not_le.mpr hq)]
    have ha : 0 < (addMaxCurvatureResidual w kmax pt pt_p pt_m cc).1.turning_rad - kmax :=
      heps.trans hp
    set a := (addMaxCurvatureResidual w kmax pt pt_p pt_m cc).1.turning_rad - kmax
    set b := (addMaxCurvatureResidual w kmax qt qt_p qt_m cd).1.turning_rad - kmax
    have hb : a < b := sub_lt_sub_right hlt kmax
    nlinarith [mul_pos (mul_pos hw (show (0 : ℝ) < b - a by linarith))
      (show (0 : ℝ) < b + a by linarith)]

/-- Witness for C8_curvature_threshold_quadratic at w = 2, kmax = 10, with
a right-angle triple of side 1/10 and another of side 1/20. -/
theorem C8_curvature_threshold_quadratic_witness :
    ((0 : ℝ) < 2 ∧
     ¬ Vec2.norm ⟨1 / 10 - 0, 0 - 0⟩ < EPSILON ∧
     ¬ Vec2.norm ⟨1 / 10 - 1 / 10, 1 / 10 - 0⟩ < EPSILON ∧
     ¬ Vec2.norm ⟨1 / 20 - 0, 0 - 0⟩ < EPSILON ∧
     ¬ Vec2.norm ⟨1 / 20 - 1 / 20, 1 / 20 - 0⟩ < EPSILON) ∧
    (((addMaxCurvatureResidual 2 10 ⟨1 / 10, 0⟩ ⟨1 / 10, 1 / 10⟩ ⟨0, 0⟩
          ccZero).1.turning_rad - 10 ≤ EPSILON →
      (addMaxCurvatureResidual 2 10 ⟨1 / 10, 0⟩ ⟨1 / 10, 1 / 10⟩ ⟨0, 0⟩
          ccZero).2 = 0) ∧
    (EPSILON < (addMaxCurvatureResidual 2 10 ⟨1 / 10, 0⟩ ⟨1 / 10, 1 / 10⟩ ⟨0, 0⟩
          ccZero).1.turning_rad - 10 →
      (addMaxCurvatureResidual 2 10 ⟨1 / 10, 0⟩ ⟨1 / 10, 1 / 10⟩ ⟨0, 0⟩
          ccZero).2 =
        2 * ((addMaxCurvatureResidual 2 10 ⟨1 / 10, 0⟩ ⟨1 / 10, 1 / 10⟩ ⟨0, 0⟩
          ccZero).1.turning_rad - 10)
          * ((addMaxCurvatureResidual 2 10 ⟨1 / 10, 0⟩ ⟨1 / 10, 1 / 10⟩ ⟨0, 0⟩
          ccZero).1.turning_rad - 10) ∧
      0 < (addMaxCurvatureResidual 2 10 ⟨1 / 10, 0⟩ ⟨1 / 10, 1 / 10⟩ ⟨0, 0⟩
          ccZero).2) ∧
    (EPSILON < (addMaxCurvatureResidual 2 10 ⟨1 / 10, 0⟩ ⟨1 / 10, 1 / 10⟩ ⟨0, 0⟩
          ccZero).1.turning_rad - 10 →
     EPSILON < (addMaxCurvatureResidual 2 10 ⟨1 / 20, 0⟩ ⟨1 / 20, 1 / 20⟩ ⟨0, 0⟩
          ccZero).1.turning_rad - 10 →
     (addMaxCurvatureResidual 2 10 ⟨1 / 10, 0⟩ ⟨1 / 10, 1 / 10⟩ ⟨0, 0⟩
          ccZero).1.turning_rad <
       (addMaxCurvatureResidual 2 10 ⟨1 / 20, 0⟩ ⟨1 / 20, 1 / 20⟩ ⟨0, 0⟩
          ccZero).1.turning_rad →
     (addMaxCurvatureResidual 2 10 ⟨1 / 10, 0⟩ ⟨1 / 10, 1 / 10⟩ ⟨0, 0⟩
          ccZero).2 <
       (addMaxCurvatureResidual 2 10 ⟨1 / 20, 0⟩ ⟨1 / 20, 1 / 20⟩ ⟨0, 0⟩
          ccZero).2)) := by
  have hw : (0 : ℝ) < 2 := by norm_num
  have h1 : ¬ Vec2.norm ⟨1 / 10 - 0, 0 - 0⟩ < EPSILON := by
    norm_num [vec2_norm_xaxis, EPSILON]
  have h2 : ¬ Vec2.norm ⟨1 / 10 - 1 / 10, 1 / 10 - 0⟩ < EPSILON := by
    norm_num [vec2_norm_yaxis, EPSILON]
  have h3 : ¬ Vec2.norm ⟨1 / 20 - 0, 0 - 0⟩ < EPSILON := by
    norm_num [vec2_norm_xaxis, EPSILON]
  have h4 : ¬ Vec2.norm ⟨1 / 20 - 1 / 20, 1 / 20 - 0⟩ < EPSILON := by
    norm_num [vec2_norm_yaxis, EPSILON]
  exact ⟨⟨hw, h1, h2, h3, h4⟩,
    C8_curvature_threshold_quadratic 2 10 hw ⟨1 / 10, 0⟩ ⟨1 / 10, 1 / 10⟩ ⟨0, 0⟩
      ⟨1 / 20, 0⟩ ⟨1 / 20, 1 / 20⟩ ⟨0, 0⟩ ccZero ccZero h1 h2 h3 h4⟩

/-- Claim C7 counterexample: for the exact-reversal triple pt_m = (0,0),
pt = (1,0), pt_p = (0,0) the normalized projection is -1, within EPSILON of
-1, yet the source's clamp branch assigns +1.0, so the stored turning angle
is arccos 1 = 0 and not pi as the claim requires (pi is not 0). -/
theorem C7_negative_projection_clamped_to_plus_one :
    (addMaxCurvatureResidual 2 10 ⟨1, 0⟩ ⟨0, 0⟩ ⟨0, 0⟩ ccZero).1.delta_phi_i
      = 0 ∧ Real.pi ≠ 0 := by
  constructor
  · rw [addMaxCurvatureResidual]
    norm_num [ccZero, Vec2.dot, vec2_norm_def, EPSILON, Real.sqrt_one,
      Real.arccos_one]
  · exact Real.pi_ne_zero

/-- Claim C7 (amended): when the normalized projection of the two segment
vectors lies within EPSILON of -1, the source clamps it to exactly +1 (the
same value as the near +1 case), so the turning angle becomes arccos 1 = 0,
the turning-radius estimate 0, and (for a nonnegative threshold) the
curvature-limit increment 0: a near-reversal is treated like a straight
segment, not like a turn of angle pi. -/
theorem C7_clamp_amended (w kmax : ℝ) (pt pt_p pt_m : Vec2)
    (cc : CurvatureComputations)
    (h1 : ¬ Vec2.norm ⟨pt.x - pt_m.x, pt.y - pt_m.y⟩ < EPSILON)
    (h2 : ¬ Vec2.norm ⟨pt_p.x - pt.x, pt_p.y - pt.y⟩ < EPSILON)
    (h3 : |Vec2.dot ⟨pt.x - pt_m.x, pt.y - pt_m.y⟩ ⟨pt_p.x - pt.x, pt_p.y - pt.y⟩ /
        (Vec2.norm ⟨pt.x - pt_m.x, pt.y - pt_m.y⟩ *
         Vec2.norm ⟨pt_p.x - pt.x, pt_p.y - pt.y⟩) + 1| < EPSILON)
    (h4 : 0 ≤ kmax) :
    (addMaxCurvatureResidual w kmax pt pt_p pt_m cc).1.delta_phi_i = 0 ∧
    (addMaxCurvatureResidual w kmax pt pt_p pt_m cc).1.turning_rad = 0 ∧
    (addMaxCurvatureResidual w kmax pt pt_p pt_m cc).2 = 0 := by
  have heps : (0 : ℝ) < EPSILON := by norm_num [EPSILON]
  rw [addMaxCurvatureResidual]
  simp only [if_neg (not_or.mpr ⟨h1, h2⟩), if_pos (Or.inr h3), Real.arccos_one,
    zero_div]
  have hle : (0 : ℝ) - kmax ≤ EPSILON := by linarith
  simp only [if_pos hle]
  exact ⟨trivial, trivial, trivial⟩

/-- Witness for C7_clamp_amended at the exact-reversal triple pt_m = (0,0),
pt = (1,0), pt_p = (0,0) with w = 2, kmax = 10. -/
theorem C7_clamp_amended_witness :
    (¬ Vec2.norm ⟨1 - 0, 0 - 0⟩ < EPSILON ∧
     ¬ Vec2.norm ⟨0 - 1, 0 - 0⟩ < EPSILON ∧
     |Vec2.dot ⟨1 - 0, 0 - 0⟩ ⟨0 - 1, 0 - 0⟩ /
        (Vec2.norm ⟨1 - 0, 0 - 0⟩ * Vec2.norm ⟨0 - 1, 0 - 0⟩) + 1| < EPSILON ∧
     (0 : ℝ) ≤ 10) ∧
    ((addMaxCurvatureResidual 2 10 ⟨1, 0⟩ ⟨0, 0⟩ ⟨0, 0⟩ ccZero).1.delta_phi_i
       = 0 ∧
     (addMaxCurvatureResidual 2 10 ⟨1, 0⟩ ⟨0, 0⟩ ⟨0, 0⟩ ccZero).1.turning_rad
       = 0 ∧
     (addMaxCurvatureResidual 2 10 ⟨1, 0⟩ ⟨0, 0⟩ ⟨0, 0⟩ ccZero).2 = 0) := by
  have h1 : ¬ Vec2.norm ⟨1 - 0, 0 - 0⟩ < EPSILON := by
    norm_num [vec2_norm_def, Real.sqrt_one, EPSILON]
  have h2 : ¬ Vec2.norm ⟨0 - 1, 0 - 0⟩ < EPSILON := by
    norm_num [vec2_norm_def, Real.sqrt_one, EPSILON]
  have h3 : |Vec2.dot ⟨1 - 0, 0 - 0⟩ ⟨0 - 1, 0 - 0⟩ /
      (Vec2.norm ⟨1 - 0, 0 - 0⟩ * Vec2.norm ⟨0 - 1, 0 - 0⟩) + 1| < EPSILON := by
    norm_num [Vec2.dot, vec2_norm_def, Real.sqrt_one, EPSILON]
  have h4 : (0 : ℝ) ≤ 10 := by norm_num
  exact ⟨⟨h1, h2, h3, h4⟩,
    C7_clamp_amended 2 10 ⟨1, 0⟩ ⟨0, 0⟩ ⟨0, 0⟩ ccZero h1 h2 h3 h4⟩

/-- Claim C5: on the 11 x 11 field cmC5 that is zero except for cell (3,5)
= 12, queried at the interior cell (5,5) (all stencil neighbors in
bounds), the source helper returns the zero vector: its final neighbor
read stores the (mx, my-2) sample into left_two (discarding the
(mx-2, my) sample read just before) and leaves down_two at 0, so the 12 at
(3,5) never reaches either component.  The stencil the claim and spec
describe returns the unit vector (1, 0) at the same cell. -/
theorem C5_costmap_gradient_stencil_bug :
    (getCostmapGradient cmC5 5 5 ⟨0, 0, 0⟩).gradx = 0 ∧
    (getCostmapGradient cmC5 5 5 ⟨0, 0, 0⟩).grady = 0 ∧
    specCostmapGradient cmC5 5 5 = (1, 0) := by
  refine ⟨?_, ?_, ?_⟩
  · rw [getCostmapGradient]
    norm_num [cmC5, wrapAdd, wrapSub, EPSILON, Real.sqrt_zero]
  · rw [getCostmapGradient]
    norm_num [cmC5, wrapAdd, wrapSub, EPSILON, Real.sqrt_zero]
  · rw [specCostmapGradient]
    norm_num [cmC5, EPSILON, Real.sqrt_one, Prod.ext_iff,
      show Int.toNat 3 = 3 from rfl, show Int.toNat 4 = 4 from rfl,
      show Int.toNat 5 = 5 from rfl, show Int.toNat 6 = 6 from rfl,
      show Int.toNat 7 = 7 from rfl]

/-- At the sharp-corner triple pt_m = (1,0), pt = (11/10,0),
pt_p = (11/10,1/10) (two segments of length 1/10 at a right angle, turning
radius estimate 5 pi above the threshold 10), addMaxCurvatureResidual
passes the incoming valid flag through unchanged and adds a strictly
positive cost increment. -/
theorem curvB_valid_passthrough_and_positive (cc : CurvatureComputations) :
    (addMaxCurvatureResidual 2 10 ⟨11 / 10, 0⟩ ⟨11 / 10, 1 / 10⟩ ⟨1, 0⟩
        cc).1.valid = cc.valid ∧
    0 < (addMaxCurvatureResidual 2 10 ⟨11 / 10, 0⟩ ⟨11 / 10, 1 / 10⟩ ⟨1, 0⟩
        cc).2 := by
  have hpi := Real.pi_gt_three
  rw [addMaxCurvatureResidual]
  norm_num [vec2_norm_xaxis, vec2_norm_yaxis, Vec2.dot, EPSILON,
    Real.arccos_zero]
  split_ifs with h
  · exfalso
    nlinarith
  · refine ⟨rfl, ?_⟩
    nlinarith [not_le.mp h]

/-- Claim C6: the validity flag is sticky.  At the first interior point of
the path (0,0), (1,0), (11/10,0), (11/10,1/10) the segments are collinear,
the estimate is below the threshold and the flag is cleared; at the second
interior point, whose turning-radius estimate 5 pi exceeds the threshold
10, the residual call still adds a strictly positive curvature cost while
leaving the flag false (the source never resets it to true), so the
jacobian call for that same point is skipped and returns (0, 0): the cost
and gradient contributions are not made or skipped together. -/
theorem C6_sticky_valid_flag_bug :
    (addMaxCurvatureResidual 2 10 ⟨1, 0⟩ ⟨11 / 10, 0⟩ ⟨0, 0⟩ ccZero).1.valid
      = false ∧
    0 < (addMaxCurvatureResidual 2 10 ⟨11 / 10, 0⟩ ⟨11 / 10, 1 / 10⟩ ⟨1, 0⟩
        (addMaxCurvatureResidual 2 10 ⟨1, 0⟩ ⟨11 / 10, 0⟩ ⟨0, 0⟩ ccZero).1).2 ∧
    (addMaxCurvatureResidual 2 10 ⟨11 / 10, 0⟩ ⟨11 / 10, 1 / 10⟩ ⟨1, 0⟩
        (addMaxCurvatureResidual 2 10 ⟨1, 0⟩ ⟨11 / 10, 0⟩ ⟨0, 0⟩
          ccZero).1).1.valid = false ∧
    addMaxCurvatureJacobian 2 ⟨11 / 10, 0⟩ ⟨11 / 10, 1 / 10⟩ ⟨1, 0⟩
        (addMaxCurvatureResidual 2 10 ⟨11 / 10, 0⟩ ⟨11 / 10, 1 / 10⟩ ⟨1, 0⟩
          (addMaxCurvatureResidual 2 10 ⟨1, 0⟩ ⟨11 / 10, 0⟩ ⟨0, 0⟩
            ccZero).1).1 = (0, 0) := by
  have hA : (addMaxCurvatureResidual 2 10 ⟨1, 0⟩ ⟨11 / 10, 0⟩ ⟨0, 0⟩
      ccZero).1.valid = false := by
    rw [addMaxCurvatureResidual]
    norm_num [ccZero, vec2_norm_xaxis, Vec2.dot, EPSILON, Real.arccos_one]
  obtain ⟨hBv, hBr⟩ := curvB_valid_passthrough_and_positive
    (addMaxCurvatureResidual 2 10 ⟨1, 0⟩ ⟨11 / 10, 0⟩ ⟨0, 0⟩ ccZero).1
  rw [hA] at hBv
  refine ⟨hA, hBr, hBv, ?_⟩
  rw [addMaxCurvatureJacobian, if_pos hBv]

/-- evalStep writes the gradient buffer only at the two slots of point i. -/
theorem evalStep_gradient_apply (W : Weights) (cm : MinimalCostmap)
    (params : ℕ → ℝ) (b : Bool) (s : EvalState) (i j : ℕ)
    (hj1 : j ≠ 2 * i) (hj2 : j ≠ 2 * i + 1) :
    (evalStep W cm params b s i).gradient j = s.gradient j := by
  cases b
  · rfl
  · show (Function.update (Function.update s.gradient (2 * i) _) (2 * i + 1) _) j
      = s.gradient j
    rw [Function.update_noteq hj2, Function.update_noteq hj1]

/-- The Evaluate fold leaves every gradient slot outside the interior range
(slots below 2 and at or above 2N - 2) untouched. -/
theorem foldl_gradient_preserved (W : Weights) (cm : MinimalCostmap)
    (params : ℕ → ℝ) (b : Bool) (N : ℕ) (l : List ℕ) (j : ℕ)
    (hj : j < 2 ∨ 2 * N - 2 ≤ j) :
    ∀ s : EvalState,
      ((l.foldl (evalIter W cm params b N) s).gradient j = s.gradient j) := by
  induction l with
  | nil => intro s; rfl
  | cons i t ih =>
    intro s
    rw [List.foldl_cons, ih]
    rw [evalIter]
    by_cases hski : i < 1 ∨ N - 1 ≤ i
    · rw [if_pos hski]
    · rw [if_neg hski]
      push_neg at hski
      exact evalStep_gradient_apply W cm params b s i j (by omega) (by omega)

/-- The cost component of Evaluate is the cost accumulator of the loop
fold. -/
theorem Evaluate_fst (W : Weights) (cm : MinimalCostmap) (N : ℕ)
    (params g0 : ℕ → ℝ) (b : Bool) (cc0 : CurvatureComputations) :
    (Evaluate W cm N params g0 b cc0).1 =
      ((List.range N).foldl (evalIter W cm params b N)
        { cost_raw := 0, grad_x_raw := 0, grad_y_raw := 0, ki_m1 := 0,
          curvature_params := { cc0 with valid := true },
          cost_params := { cost := 0, gradx := 0, grady := 0 },
          gradient := g0 }).cost_raw := rfl

/-- The gradient component of Evaluate is the gradient buffer of the loop
fold. -/
theorem Evaluate_snd (W : Weights) (cm : MinimalCostmap) (N : ℕ)
    (params g0 : ℕ → ℝ) (b : Bool) (cc0 : CurvatureComputations) :
    (Evaluate W cm N params g0 b cc0).2 =
      ((List.range N).foldl (evalIter W cm params b N)
        { cost_raw := 0, grad_x_raw := 0, grad_y_raw := 0, ki_m1 := 0,
          curvature_params := { cc0 with valid := true },
          cost_params := { cost := 0, gradx := 0, grady := 0 },
          gradient := g0 }).gradient := rfl

/-- Claim C2 counterexample: a run of Evaluate on the 3-point path
(0,0), (1,0), (2,0) whose caller-supplied gradient buffer holds 5
everywhere leaves 5, not 0, in endpoint slot 0 after the call: the source
never writes the endpoint slots, it only skips them. -/
theorem C2_endpoint_slot_not_zero_counterexample :
    (Evaluate defaultWeights cmNone 3 pathC2 (fun _ => 5) true ccZero).2 0 = 5 ∧
    (5 : ℝ) ≠ 0 := by
  constructor
  · rw [Evaluate_snd, foldl_gradient_preserved defaultWeights cmNone pathC2
      true 3 (List.range 3) 0 (Or.inl (by norm_num))]
  · norm_num

/-- Claim C2 (amended): for every weight configuration, cost field, path
and initial gradient buffer, Evaluate never writes gradient slots 0, 1,
2N-2 and 2N-1 (the fixed endpoints): after the call they hold exactly the
values the caller supplied, so they are zero precisely when the caller
pre-zeroed the buffer, not unconditionally. -/
theorem C2_endpoint_slots_unchanged (W : Weights) (cm : MinimalCostmap)
    (N : ℕ) (params g0 : ℕ → ℝ) (cc0 : CurvatureComputations) :
    (Evaluate W cm N params g0 true cc0).2 0 = g0 0 ∧
    (Evaluate W cm N params g0 true cc0).2 1 = g0 1 ∧
    (Evaluate W cm N params g0 true cc0).2 (2 * N - 2) = g0 (2 * N - 2) ∧
    (Evaluate W cm N params g0 true cc0).2 (2 * N - 1) = g0 (2 * N - 1) := by
  refine ⟨?_, ?_, ?_, ?_⟩ <;>
    rw [Evaluate_snd, foldl_gradient_preserved W cm params true N
      (List.range N) _ (by omega)]

/-- The collision residual increment does not depend on the incoming cache. -/
theorem addCollisionResidual_snd_congr (w v : ℝ) (ps qs : CostComputations) :
    (addCollisionResidual w v ps).2 = (addCollisionResidual w v qs).2 := by
  rw [addCollisionResidual, addCollisionResidual]
  split_ifs <;> rfl

/-- The cost member written by the collision residual depends only on the
incoming cost member. -/
theorem addCollisionResidual_fst_cost_congr (w v : ℝ) (ps qs : CostComputations)
    (h : ps.cost = qs.cost) :
    (addCollisionResidual w v ps).1.cost = (addCollisionResidual w v qs).1.cost := by
  rw [addCollisionResidual, addCollisionResidual]
  split_ifs <;> simp [h]

/-- The cost-avoidance residual reads only the cost member of the cache. -/
theorem addCostResidual_cost_congr (w v : ℝ) (ps qs : CostComputations)
    (h : ps.cost = qs.cost) :
    addCostResidual w v ps = addCostResidual w v qs := by
  rw [addCostResidual, addCostResidual, h]

/-- getCostmapGradient writes only the gradx and grady members. -/
theorem getCostmapGradient_cost (cm : MinimalCostmap) (mx my : ℕ)
    (ps : CostComputations) :
    (getCostmapGradient cm mx my ps).cost = ps.cost := by
  simp only [getCostmapGradient, apply_ite CostComputations.cost, ite_self]

/-- addCollisionJacobian leaves the cost member of the cache unchanged. -/
theorem addCollisionJacobian_cost (w : ℝ) (cm : MinimalCostmap) (mx my : ℕ)
    (v : ℝ) (ps : CostComputations) :
    (addCollisionJacobian w cm mx my v ps).1.cost = ps.cost := by
  rw [addCollisionJacobian]
  split_ifs <;> simp [getCostmapGradient_cost]

/-- addCostJacobian leaves the cost member of the cache unchanged. -/
theorem addCostJacobian_cost (w : ℝ) (cm : MinimalCostmap) (mx my : ℕ)
    (v : ℝ) (ps : CostComputations) :
    (addCostJacobian w cm mx my v ps).1.cost = ps.cost := by
  rw [addCostJacobian]
  split_ifs <;> simp [getCostmapGradient_cost]

/-- One loop iteration preserves EvalRel between a gradient-requesting run
and a cost-only run. -/
theorem evalStep_rel (W : Weights) (cm : MinimalCostmap) (params : ℕ → ℝ)
    (i : ℕ) (s t : EvalState) (h : EvalRel s t) :
    EvalRel (evalStep W cm params true s i) (evalStep W cm params false t i) := by
  obtain ⟨h1, h2, h3, h4⟩ := h
  rcases hm : cm.worldToMap (params (2 * i)) (params (2 * i + 1)) with _ | ⟨mx, my⟩
  · refine ⟨?_, ?_, ?_, ?_⟩ <;>
      simp only [evalStep, hm, eq_self_iff_true, if_true, Bool.false_eq_true,
        if_false, h1, h2, h3, h4]
  · refine ⟨?_, ?_, ?_, ?_⟩ <;>
      simp only [evalStep, hm, eq_self_iff_true, if_true, Bool.false_eq_true,
        if_false, h1, h2, h3, h4, addCollisionJacobian_cost, addCostJacobian_cost,
        addCollisionResidual_snd_congr W.Wcollision (cm.getCost mx my)
          s.cost_params t.cost_params,
        addCollisionResidual_fst_cost_congr W.Wcollision (cm.getCost mx my)
          s.cost_params t.cost_params h4,
        addCostResidual_cost_congr W.Wcost (cm.getCost mx my)
          (addCollisionResidual W.Wcollision (cm.getCost mx my) s.cost_params).1
          (addCollisionResidual W.Wcollision (cm.getCost mx my) t.cost_params).1
          (addCollisionResidual_fst_cost_congr W.Wcollision (cm.getCost mx my)
            s.cost_params t.cost_params h4)]

/-- The whole loop fold preserves EvalRel. -/
theorem foldl_rel (W : Weights) (cm : MinimalCostmap) (params : ℕ → ℝ)
    (N : ℕ) (l : List ℕ) :
    ∀ s t : EvalState, EvalRel s t →
      EvalRel (l.foldl (evalIter W cm params true N) s)
        (l.foldl (evalIter W cm params false N) t) := by
  induction l with
  | nil => intro s t h; exact h
  | cons i r ih =>
    intro s t h
    rw [List.foldl_cons, List.foldl_cons]
    apply ih
    rw [evalIter, evalIter]
    by_cases hski : i < 1 ∨ N - 1 ≤ i
    · rw [if_pos hski, if_pos hski]
      exact h
    · rw [if_neg hski, if_neg hski]
      exact evalStep_rel W cm params i s t h

/-- Claim C10: for every weight configuration, cost field, path, initial
gradient buffer and initial cache contents, the scalar cost Evaluate
returns is the same whether or not the gradient is requested: the
gradient-only computations never feed back into the accumulated cost. -/
theorem C10_cost_independent_of_gradient_request (W : Weights)
    (cm : MinimalCostmap) (N : ℕ) (params g0 : ℕ → ℝ)
    (cc0 : CurvatureComputations) :
    (Evaluate W cm N params g0 true cc0).1 =
      (Evaluate W cm N params g0 false cc0).1 := by
  rw [Evaluate_fst, Evaluate_fst]
  exact (foldl_rel W cm params N (List.range N) _ _ ⟨rfl, rfl, rfl, rfl⟩).1

/-- Claim C9: on the degenerate 3-point path (0,0), (0,0), (1,0) (middle
point coincident with the first), the curvature residual takes its
degenerate early return and never assigns turning_rad; the turning-rate
change term then reads that member, which in the C++ is an uninitialized
stack double.  Modelling the indeterminate initial contents explicitly,
the returned cost is 200000 when the junk value is 0 but 200001 when it is
1: the cost of the call depends on uninitialized memory, so the well
defined finite result the claim requires is not guaranteed by the code. -/
theorem C9_uninitialized_turning_rad_dependence :
    (Evaluate defaultWeights cmNone 3 pathC9 (fun _ => 0) true ccZero).1
      = 200000 ∧
    (Evaluate defaultWeights cmNone 3 pathC9 (fun _ => 0) true ccOne).1
      = 200001 := by
  constructor <;>
  · rw [Evaluate_fst, show List.range 3 = [0, 1, 2] from rfl]
    simp only [List.foldl_cons, List.foldl_nil]
    norm_num [evalIter, evalStep, cmNone, pathC9, defaultWeights, ccZero,
      ccOne, addSmoothingResidual, addMaxCurvatureResidual,
      addTurningRateChangeResidual, Vec2.dot, vec2_norm_def, Real.sqrt_zero,
      Real.sqrt_one, EPSILON]

theorem real_sqrt_four : Real.sqrt 4 = 2 := by
  rw [show (4 : ℝ) = 2 ^ 2 by norm_num, Real.sqrt_sq (by norm_num : (0 : ℝ) ≤ 2)]

/-- Claim C1: on the 4-point path (0,0), (1,0), (3,0), (4,0) over a cost
field whose transform always fails, with the gradient requested, the output
slot of interior point 1 holds its own smoothing contribution -800000, but
the slot of interior point 2 holds 0, the running sum of point 1's
contribution (-800000) and point 2's own contribution (+800000): the
grad_x_raw/grad_y_raw accumulators are never reset between loop
iterations, so each slot receives the prefix sum over all interior points
so far, not the point's own five-term sum (which for point 2 is its
smoothing jacobian 800000, a nonzero value). -/
theorem C1_gradient_slots_accumulate_across_points :
    (Evaluate defaultWeights cmNone 4 pathC1 (fun _ => 0) true ccZero).2 2
      = -800000 ∧
    (Evaluate defaultWeights cmNone 4 pathC1 (fun _ => 0) true ccZero).2 4
      = 0 ∧
    (addSmoothingJacobian 200000 ⟨3, 0⟩ ⟨4, 0⟩ ⟨1, 0⟩).1 = 800000 ∧
    (800000 : ℝ) ≠ 0 := by
  refine ⟨?_, ?_, by norm_num [addSmoothingJacobian], by norm_num⟩ <;>
  · rw [Evaluate_snd, show List.range 4 = [0, 1, 2, 3] from rfl]
    simp only [List.foldl_cons, List.foldl_nil]
    norm_num [evalIter, evalStep, cmNone, pathC1, defaultWeights, ccZero,
      addSmoothingResidual, addMaxCurvatureResidual,
      addTurningRateChangeResidual, addSmoothingJacobian,
      addMaxCurvatureJacobian, addTurningRateChangeJacobian, Vec2.dot,
      vec2_norm_def, Real.sqrt_one, real_sqrt_four, Real.arccos_one,
      EPSILON, Function.update_apply]
